import Mathlib

/-!
Verification of the schema-suggestion core of the BuildML repository.

The embedded code is `lib/services/schemaGenerator.ts`: a fixed catalog of
schema patterns (`schemaPatterns`), a keyword matcher (`generateSchemas`),
a JSON validator (`validateSchema`) and a pretty-printer (`formatSchema`).
JSON values are modelled by the inductive type `Json`; `JSON.stringify(x, null, 2)`
and `JSON.parse` are modelled by executable functions `renderJson` / `parseJson`
(non-integer JSON numerals are collapsed to the marker constructor
`Json.decimalNum`; the core itself only ever produces integer numerals, and the
validator only inspects the shape of the parsed value, so the collapse is
invisible to every statement proved below).
-/

/-- Model of a JSON value.  Object members are kept as an ordered association
list, mirroring JavaScript key insertion order. -/
inductive Json where
  | null : Json
  | bool : Bool → Json
  | num : Int → Json
  | decimalNum : Json
  | str : String → Json
  | arr : List Json → Json
  | obj : List (String × Json) → Json

/-- The argument record taken by `createSchema` for a single property:
`{ type, description, items?, minimum?, maximum? }`. -/
structure FieldSpec where
  type : String
  description : String
  items : Option Json := none
  minimum : Option Int := none
  maximum : Option Int := none

/-- The per-property object built inside `createSchema`'s reduce: `type` and
`description` always, then `items`, `minimum`, `maximum` exactly when supplied,
in that insertion order. -/
def fieldJson (f : FieldSpec) : Json :=
  Json.obj ([("type", Json.str f.type), ("description", Json.str f.description)]
    ++ (match f.items with | some it => [("items", it)] | none => [])
    ++ (match f.minimum with | some m => [("minimum", Json.num m)] | none => [])
    ++ (match f.maximum with | some m => [("maximum", Json.num m)] | none => []))

/-- Embedding of `createSchema(properties, required)`: builds
`{ type: "object", properties: ..., required: ... }`. -/
def createSchema (properties : List (String × FieldSpec)) (required : List String) : Json :=
  Json.obj [("type", Json.str "object"),
            ("properties", Json.obj (properties.map fun kv => (kv.1, fieldJson kv.2))),
            ("required", Json.arr (required.map Json.str))]

/-- Embedding of the `SchemaSet` interface: an input schema and an output schema. -/
structure SchemaSet where
  input : Json
  output : Json

/-- Embedding of the `SchemaPattern` interface.  The source's `generator` is a
pure nullary closure; it is embedded as the `SchemaSet` value it returns. -/
structure SchemaPattern where
  keywords : List String
  priority : Nat
  generator : SchemaSet

/-- Generator of the fraud pattern (first catalog entry). -/
def fraudSchemas : SchemaSet :=
  { input := createSchema [
      ("text_content", { type := "string", description := "The text content to analyze" }),
      ("sender_email", { type := "string", description := "Email address of the sender" }),
      ("subject", { type := "string", description := "Email or message subject" }),
      ("metadata", { type := "object", description := "Additional contextual information" })]
      ["text_content"],
    output := createSchema [
      ("is_fraudulent", { type := "boolean", description := "Whether the content is fraudulent" }),
      ("confidence", { type := "number", description := "Confidence score between 0 and 1",
                       minimum := some 0, maximum := some 1 }),
      ("risk_factors", { type := "array", description := "List of identified risk factors",
                         items := some (Json.obj [("type", Json.str "string")]) }),
      ("severity", { type := "string", description := "Risk level: low, medium, high" })]
      ["is_fraudulent", "confidence"] }

/-- Generator of the churn pattern (second catalog entry). -/
def churnSchemas : SchemaSet :=
  { input := createSchema [
      ("customer_id", { type := "string", description := "Unique customer identifier" }),
      ("days_active", { type := "integer", description := "Number of days as customer",
                        minimum := some 0 }),
      ("engagement_score", { type := "number", description := "Engagement metric",
                             minimum := some 0, maximum := some 100 }),
      ("last_activity_days", { type := "integer", description := "Days since last activity",
                               minimum := some 0 }),
      ("support_tickets", { type := "integer", description := "Number of support tickets filed",
                            minimum := some 0 })]
      ["customer_id", "days_active"],
    output := createSchema [
      ("will_churn", { type := "boolean", description := "Predicted churn likelihood" }),
      ("churn_probability", { type := "number", description := "Probability between 0 and 1",
                              minimum := some 0, maximum := some 1 }),
      ("churn_date_estimate", { type := "string",
                                description := "Estimated date of churn (ISO 8601)" }),
      ("retention_factors", { type := "array", description := "Factors affecting retention",
                              items := some (Json.obj [("type", Json.str "string")]) })]
      ["will_churn", "churn_probability"] }

/-- Generator of the sentiment pattern (third catalog entry). -/
def sentimentSchemas : SchemaSet :=
  { input := createSchema [
      ("text", { type := "string", description := "Text to analyze for sentiment" }),
      ("language", { type := "string", description := "Language code (e.g., en, es)" }),
      ("context", { type := "string", description := "Additional context about the text" })]
      ["text"],
    output := createSchema [
      ("sentiment", { type := "string",
                      description := "Sentiment classification: positive, negative, or neutral" }),
      ("score", { type := "number", description := "Sentiment score between -1 and 1",
                  minimum := some (-1), maximum := some 1 }),
      ("confidence", { type := "number", description := "Confidence in prediction",
                       minimum := some 0, maximum := some 1 }),
      ("emotions", { type := "object", description := "Breakdown of detected emotions" })]
      ["sentiment", "score"] }

/-- Generator of the classification pattern (fourth catalog entry). -/
def classifySchemas : SchemaSet :=
  { input := createSchema [
      ("text", { type := "string", description := "Text to classify" }),
      ("features", { type := "object", description := "Additional features for classification" }),
      ("metadata", { type := "object", description := "Contextual metadata" })]
      ["text"],
    output := createSchema [
      ("category", { type := "string", description := "Predicted category" }),
      ("confidence", { type := "number", description := "Confidence score",
                       minimum := some 0, maximum := some 1 }),
      ("all_categories", { type := "array",
                           description := "All possible categories with scores",
                           items := some (Json.obj [("type", Json.str "object")]) }),
      ("reasoning", { type := "string", description := "Explanation of classification" })]
      ["category", "confidence"] }

/-- Generator of the pricing pattern (fifth catalog entry). -/
def priceSchemas : SchemaSet :=
  { input := createSchema [
      ("features", { type := "object", description := "Relevant features (size, location, etc.)" }),
      ("category", { type := "string", description := "Item category" }),
      ("condition", { type := "string", description := "Item condition" }),
      ("market_data", { type := "object", description := "Current market conditions" })]
      ["features", "category"],
    output := createSchema [
      ("predicted_price", { type := "number", description := "Estimated price",
                            minimum := some 0 }),
      ("price_range_min", { type := "number", description := "Minimum price estimate",
                            minimum := some 0 }),
      ("price_range_max", { type := "number", description := "Maximum price estimate",
                            minimum := some 0 }),
      ("confidence_interval", { type := "number", description := "Confidence level",
                                minimum := some 0, maximum := some 1 })]
      ["predicted_price"] }

/-- Generator of the recommendation pattern (sixth catalog entry). -/
def recommendSchemas : SchemaSet :=
  { input := createSchema [
      ("user_id", { type := "string", description := "User identifier" }),
      ("user_preferences", { type := "object", description := "User preferences and history" }),
      ("context", { type := "object", description := "Current context (time, location, etc.)" }),
      ("num_recommendations", { type := "integer", description := "Number of recommendations",
                                minimum := some 1 })]
      ["user_id"],
    output := createSchema [
      ("recommendations", { type := "array", description := "List of recommended items",
                            items := some (Json.obj [("type", Json.str "object")]) }),
      ("scores", { type := "array", description := "Relevance scores for each item",
                   items := some (Json.obj [("type", Json.str "number")]) }),
      ("reasoning", { type := "object", description := "Explanation for recommendations" }),
      ("diversity_score", { type := "number", description := "Recommendation diversity",
                            minimum := some 0, maximum := some 1 })]
      ["recommendations"] }

/-- Generator of the anomaly pattern (seventh catalog entry). -/
def anomalySchemas : SchemaSet :=
  { input := createSchema [
      ("metrics", { type := "object", description := "Metrics to analyze" }),
      ("timestamp", { type := "string", description := "ISO 8601 timestamp" }),
      ("context", { type := "object", description := "Contextual information" }),
      ("baseline", { type := "object", description := "Normal behavior baseline" })]
      ["metrics", "timestamp"],
    output := createSchema [
      ("is_anomaly", { type := "boolean", description := "Whether anomaly detected" }),
      ("anomaly_score", { type := "number", description := "Anomaly severity",
                          minimum := some 0, maximum := some 1 }),
      ("anomaly_type", { type := "string", description := "Type of anomaly detected" }),
      ("affected_metrics", { type := "array", description := "Metrics showing anomalies",
                             items := some (Json.obj [("type", Json.str "string")]) })]
      ["is_anomaly", "anomaly_score"] }

/-- Generator of the image pattern (eighth catalog entry). -/
def imageSchemas : SchemaSet :=
  { input := createSchema [
      ("image_url", { type := "string", description := "URL to the image" }),
      ("image_base64", { type := "string", description := "Base64 encoded image" }),
      ("max_labels", { type := "integer", description := "Maximum number of labels to return",
                       minimum := some 1 })]
      ["image_url"],
    output := createSchema [
      ("labels", { type := "array", description := "Detected labels/objects",
                   items := some (Json.obj [("type", Json.str "string")]) }),
      ("confidence_scores", { type := "array", description := "Confidence for each label",
                              items := some (Json.obj [("type", Json.str "number")]) }),
      ("bounding_boxes", { type := "array", description := "Coordinates of detected objects",
                           items := some (Json.obj [("type", Json.str "object")]) }),
      ("metadata", { type := "object", description := "Additional image information" })]
      ["labels"] }

/-- Generator of the summarization pattern (ninth catalog entry). -/
def summarizeSchemas : SchemaSet :=
  { input := createSchema [
      ("text", { type := "string", description := "Text to summarize" }),
      ("max_length", { type := "integer",
                       description := "Maximum summary length in characters",
                       minimum := some 1 }),
      ("style", { type := "string", description := "Summary style (brief, detailed)" }),
      ("key_points", { type := "boolean", description := "Whether to extract key points" })]
      ["text"],
    output := createSchema [
      ("summary", { type := "string", description := "Generated summary" }),
      ("key_points", { type := "array", description := "Main points extracted",
                       items := some (Json.obj [("type", Json.str "string")]) }),
      ("length_ratio", { type := "number", description := "Compression ratio",
                         minimum := some 0, maximum := some 1 }),
      ("important_entities", { type := "array", description := "Key entities mentioned",
                               items := some (Json.obj [("type", Json.str "string")]) })]
      ["summary"] }

/-- Generator of the prediction pattern (tenth catalog entry). -/
def predictSchemas : SchemaSet :=
  { input := createSchema [
      ("features", { type := "object", description := "Input features for prediction" }),
      ("timestamp", { type := "string", description := "Reference timestamp (ISO 8601)" }),
      ("historical_data", { type := "array", description := "Historical data points",
                            items := some (Json.obj [("type", Json.str "object")]) })]
      ["features"],
    output := createSchema [
      ("prediction", { type := "number", description := "Predicted value" }),
      ("confidence_interval", { type := "object", description := "Upper and lower bounds" }),
      ("trend", { type := "string", description := "Predicted trend direction" }),
      ("factors", { type := "array", description := "Contributing factors",
                    items := some (Json.obj [("type", Json.str "string")]) })]
      ["prediction"] }

/-- Embedding of the `schemaPatterns` catalog, in the source's declaration
order: fraud, churn, sentiment, classify, price, recommend, anomaly, image,
summarize, predict. -/
def schemaPatterns : List SchemaPattern :=
  [ { keywords := ["fraud", "fraudulent", "scam", "spam", "phishing", "fake"],
      priority := 10, generator := fraudSchemas },
    { keywords := ["churn", "retention", "attrition", "cancel", "unsubscribe"],
      priority := 10, generator := churnSchemas },
    { keywords := ["sentiment", "emotion", "feeling", "opinion", "review"],
      priority := 9, generator := sentimentSchemas },
    { keywords := ["classify", "classification", "categorize", "category", "label", "tag"],
      priority := 8, generator := classifySchemas },
    { keywords := ["price", "pricing", "cost", "estimate", "valuation", "worth"],
      priority := 9, generator := priceSchemas },
    { keywords := ["recommend", "recommendation", "suggest", "personalize"],
      priority := 8, generator := recommendSchemas },
    { keywords := ["anomaly", "outlier", "abnormal", "unusual", "detect"],
      priority := 8, generator := anomalySchemas },
    { keywords := ["image", "photo", "picture", "visual", "recognize"],
      priority := 7, generator := imageSchemas },
    { keywords := ["summarize", "summary", "extract", "abstract", "tldr"],
      priority := 7, generator := summarizeSchemas },
    { keywords := ["predict", "forecast", "estimate"],
      priority := 5, generator := predictSchemas } ]

/-- Embedding of `getDefaultSchema`. -/
def getDefaultSchema : SchemaSet :=
  { input := createSchema [
      ("data", { type := "object", description := "Your input data" }),
      ("features", { type := "object", description := "Relevant features" }),
      ("metadata", { type := "object", description := "Additional metadata" })]
      ["data"],
    output := createSchema [
      ("prediction", { type := "string", description := "The model prediction" }),
      ("confidence", { type := "number", description := "Confidence score",
                       minimum := some 0, maximum := some 1 }),
      ("metadata", { type := "object", description := "Additional information" })]
      ["prediction"] }

/-- Model of JavaScript `hay.includes(needle)`: substring containment. -/
def includes (hay needle : String) : Bool := decide (needle.data <:+: hay.data)

/-- Model of JavaScript `s.toLowerCase()` on the ASCII fragment relevant here. -/
def lowerStr (s : String) : String := ⟨s.data.map Char.toLower⟩

/-- Model of `!s || s.trim().length === 0`: the string has no non-whitespace
character. -/
def isBlank (s : String) : Bool := s.data.all Char.isWhitespace

/-- The matcher's per-entry match count:
`pattern.keywords.filter(k => lowerDescription.includes(k)).length`. -/
def matchCount (p : SchemaPattern) (lowerDescription : String) : Nat :=
  (p.keywords.filter fun keyword => includes lowerDescription keyword).length

/-- The matcher's `effectivePriority` (the spec calls it `effectiveScore`):
`pattern.priority * matchCount`. -/
def effScore (p : SchemaPattern) (lowerDescription : String) : Int :=
  (p.priority : Int) * matchCount p lowerDescription

/-- The matcher's scanning loop over the catalog, with the accumulator
variables `bestMatch` and `highestPriority` of the source made explicit. -/
def findBest (lowerDescription : String) :
    List SchemaPattern → Option SchemaPattern → Int → Option SchemaPattern
  | [], bestMatch, _ => bestMatch
  | p :: rest, bestMatch, highestPriority =>
    if 0 < matchCount p lowerDescription then
      if highestPriority < effScore p lowerDescription then
        findBest lowerDescription rest (some p) (effScore p lowerDescription)
      else
        findBest lowerDescription rest bestMatch highestPriority
    else
      findBest lowerDescription rest bestMatch highestPriority

/-- Embedding of `generateSchemas`. -/
def generateSchemas (problemDescription : String) : SchemaSet :=
  if isBlank problemDescription then getDefaultSchema
  else
    match findBest (lowerStr problemDescription) schemaPatterns none (-1) with
    | some bestMatch => bestMatch.generator
    | none => getDefaultSchema

/-- Spaces used for a given indentation level. -/
def pad (n : Nat) : String := String.mk (List.replicate n ' ')

/-- JSON string-literal escaping as performed by `JSON.stringify` on the
characters that can occur here (quote, backslash, newline, tab, carriage
return); all other characters are emitted verbatim. -/
def escapeChar (c : Char) : List Char :=
  if c = Char.ofNat 34 then [Char.ofNat 92, Char.ofNat 34]
  else if c = Char.ofNat 92 then [Char.ofNat 92, Char.ofNat 92]
  else if c = Char.ofNat 10 then [Char.ofNat 92, 'n']
  else if c = Char.ofNat 9 then [Char.ofNat 92, 't']
  else if c = Char.ofNat 13 then [Char.ofNat 92, 'r']
  else [c]

/-- A JSON string literal: quote, escaped body, quote. -/
def quoteJson (s : String) : String :=
  String.mk (Char.ofNat 34 :: s.data.flatMap escapeChar ++ [Char.ofNat 34])

/-- Model of `JSON.stringify(j, null, 2)` at indentation level `indent`.
The `fuel` argument makes the recursion through nested lists structural; it is
always called with fuel exceeding the nesting depth of the value. -/
def renderJson : Nat → Nat → Json → String
  | 0, _, _ => ""
  | _ + 1, _, Json.null => "null"
  | _ + 1, _, Json.bool b => if b then "true" else "false"
  | _ + 1, _, Json.num n => toString n
  | _ + 1, _, Json.decimalNum => "0"
  | _ + 1, _, Json.str s => quoteJson s
  | _ + 1, _, Json.arr [] => "[]"
  | fuel + 1, indent, Json.arr (x :: xs) =>
    "[\n"
      ++ String.intercalate ",\n"
        ((x :: xs).map fun v => pad (indent + 2) ++ renderJson fuel (indent + 2) v)
      ++ "\n" ++ pad indent ++ "]"
  | _ + 1, _, Json.obj [] => "\x7b\x7d"
  | fuel + 1, indent, Json.obj (kv :: kvs) =>
    "\x7b\n"
      ++ String.intercalate ",\n"
        ((kv :: kvs).map fun m =>
          pad (indent + 2) ++ quoteJson m.1 ++ ": " ++ renderJson fuel (indent + 2) m.2)
      ++ "\n" ++ pad indent ++ "\x7d"

mutual

/-- Nesting depth of a JSON value, used as rendering fuel. -/
def jsonDepth : Json → Nat
  | Json.arr xs => 1 + jsonDepthList xs
  | Json.obj kvs => 1 + jsonDepthMembers kvs
  | _ => 1

/-- Largest nesting depth among array elements. -/
def jsonDepthList : List Json → Nat
  | [] => 0
  | v :: vs => max (jsonDepth v) (jsonDepthList vs)

/-- Largest nesting depth among object member values. -/
def jsonDepthMembers : List (String × Json) → Nat
  | [] => 0
  | kv :: kvs => max (jsonDepth kv.2) (jsonDepthMembers kvs)

end

/-- Embedding of `formatSchema`: `JSON.stringify(schemaObject, null, 2)`.
The depth of the value is exactly the fuel the rendering recursion consumes,
so the fuel is never exhausted. -/
def formatSchema (schemaObject : Json) : String :=
  renderJson (jsonDepth schemaObject) 0 schemaObject

/-- Skip JSON whitespace. -/
def skipWs : List Char → List Char
  | c :: cs =>
    if c = ' ' ∨ c = Char.ofNat 10 ∨ c = Char.ofNat 9 ∨ c = Char.ofNat 13 then skipWs cs
    else c :: cs
  | [] => []

/-- Translate a JSON escape character following a backslash. -/
def unescapeChar (c : Char) : Option Char :=
  if c = Char.ofNat 34 then some (Char.ofNat 34)
  else if c = Char.ofNat 92 then some (Char.ofNat 92)
  else if c = Char.ofNat 47 then some (Char.ofNat 47)
  else if c = 'n' then some (Char.ofNat 10)
  else if c = 't' then some (Char.ofNat 9)
  else if c = 'r' then some (Char.ofNat 13)
  else none

/-- Parse the body of a JSON string literal (the opening quote already
consumed); returns the string and the rest of the input. -/
def parseStrBody : List Char → Option (String × List Char)
  | [] => none
  | c :: cs =>
    if c = Char.ofNat 34 then some ("", cs)
    else if c = Char.ofNat 92 then
      match cs with
      | [] => none
      | e :: cs2 =>
        match unescapeChar e with
        | some ch => (parseStrBody cs2).map fun r => (String.mk (ch :: r.1.data), r.2)
        | none => none
    else (parseStrBody cs).map fun r => (String.mk (c :: r.1.data), r.2)

/-- Split off leading decimal digits, as digit values. -/
def takeDigits : List Char → List Nat × List Char
  | [] => ([], [])
  | c :: cs =>
    if c.isDigit then
      ((c.toNat - 48) :: (takeDigits cs).1, (takeDigits cs).2)
    else ([], c :: cs)

/-- Value of a digit-value list read in base 10. -/
def digitsToNat (ds : List Nat) : Nat := ds.foldl (fun a d => 10 * a + d) 0

/-- Parse an exponent part after `e`/`E`: optional sign, then digits. -/
def parseExpPart (cs : List Char) : Option (List Char) :=
  let rest := match cs with
    | c :: cs2 => if c = '+' ∨ c = '-' then cs2 else cs
    | [] => []
  let ds := takeDigits rest
  if ds.1.isEmpty then none else some ds.2

/-- Parse a JSON numeral.  A plain integer numeral becomes `Json.num`; a
numeral with a fraction or exponent part becomes the `Json.decimalNum` marker. -/
def parseNumber (cs : List Char) : Option (Json × List Char) :=
  let p := match cs with
    | c :: rest => if c = '-' then (true, rest) else (false, cs)
    | [] => (false, ([] : List Char))
  let ds := takeDigits p.2
  if ds.1.isEmpty then none
  else
    let intVal : Int := if p.1 then -(digitsToNat ds.1 : Int) else (digitsToNat ds.1 : Int)
    match ds.2 with
    | c :: rest2 =>
      if c = '.' then
        let fr := takeDigits rest2
        if fr.1.isEmpty then none
        else
          match fr.2 with
          | e :: rest3 =>
            if e = 'e' ∨ e = 'E' then (parseExpPart rest3).map fun r => (Json.decimalNum, r)
            else some (Json.decimalNum, fr.2)
          | [] => some (Json.decimalNum, [])
      else if c = 'e' ∨ c = 'E' then
        (parseExpPart rest2).map fun r => (Json.decimalNum, r)
      else some (Json.num intVal, ds.2)
    | [] => some (Json.num intVal, [])

/-- Expect a literal keyword tail (`ull`, `rue`, `alse`). -/
def expectLit (lit : List Char) (v : Json) (cs : List Char) : Option (Json × List Char) :=
  if lit.isPrefixOf cs then some (v, cs.drop lit.length) else none

/-- Parsing mode: a plain value, the element list of an array (elements
accumulated so far), or the member list of an object. -/
inductive PMode where
  | value : PMode
  | elems : List Json → PMode
  | members : List (String × Json) → PMode

/-- Recursive JSON parser, structural on `fuel`; every recursive call consumes
fuel, and `parseJson` supplies fuel proportional to the input length. -/
def parseCore : Nat → PMode → List Char → Option (Json × List Char)
  | 0, _, _ => none
  | fuel + 1, PMode.value, cs =>
    match skipWs cs with
    | [] => none
    | c :: cs2 =>
      if c = Char.ofNat 123 then
        match skipWs cs2 with
        | d :: cs3 =>
          if d = Char.ofNat 125 then some (Json.obj [], cs3)
          else parseCore fuel (PMode.members []) (d :: cs3)
        | [] => none
      else if c = '[' then
        match skipWs cs2 with
        | d :: cs3 =>
          if d = ']' then some (Json.arr [], cs3)
          else parseCore fuel (PMode.elems []) (d :: cs3)
        | [] => none
      else if c = Char.ofNat 34 then
        (parseStrBody cs2).map fun r => (Json.str r.1, r.2)
      else if c = 'n' then expectLit ['u', 'l', 'l'] Json.null cs2
      else if c = 't' then expectLit ['r', 'u', 'e'] (Json.bool true) cs2
      else if c = 'f' then expectLit ['a', 'l', 's', 'e'] (Json.bool false) cs2
      else parseNumber (c :: cs2)
  | fuel + 1, PMode.elems acc, cs =>
    match parseCore fuel PMode.value cs with
    | none => none
    | some (v, rest) =>
      match skipWs rest with
      | c :: rest2 =>
        if c = ',' then parseCore fuel (PMode.elems (acc ++ [v])) rest2
        else if c = ']' then some (Json.arr (acc ++ [v]), rest2)
        else none
      | [] => none
  | fuel + 1, PMode.members acc, cs =>
    match skipWs cs with
    | c :: cs2 =>
      if c = Char.ofNat 34 then
        match parseStrBody cs2 with
        | none => none
        | some (key, rest) =>
          match skipWs rest with
          | d :: rest2 =>
            if d = ':' then
              match parseCore fuel PMode.value rest2 with
              | none => none
              | some (v, rest3) =>
                match skipWs rest3 with
                | e :: rest4 =>
                  if e = ',' then parseCore fuel (PMode.members (acc ++ [(key, v)])) rest4
                  else if e = Char.ofNat 125 then some (Json.obj (acc ++ [(key, v)]), rest4)
                  else none
                | [] => none
            else none
          | [] => none
      else none
    | [] => none

/-- Model of `JSON.parse`: parse one value and require only whitespace after
it.  `none` models the thrown `SyntaxError`. -/
def parseJson (s : String) : Option Json :=
  match parseCore (2 * s.data.length + 4) PMode.value s.data with
  | some (v, rest) => if (skipWs rest).isEmpty then some v else none
  | none => none

/-- Result shape of `validateSchema`: `{ valid, error?, parsed? }`. -/
structure ValidationResult where
  valid : Bool
  error : Option String
  parsed : Option Json

/-- Model of the message carried by the `SyntaxError` thrown by `JSON.parse`
and surfaced verbatim by the catch branch. -/
def parseFailureMsg : String := "Unexpected token in JSON"

/-- The fixed message of the shape check. -/
def notObjectMsg : String := "Schema must be a JSON object, not an array or primitive value"

/-- `typeof parsed === "object" && parsed !== null && !Array.isArray(parsed)`. -/
def isPlainObject : Json → Bool
  | Json.obj _ => true
  | _ => false

/-- Embedding of `validateSchema`: blank input is vacuously valid; a parse
failure (the caught exception) yields `valid: false` with the parser's
message; a parsed non-object yields `valid: false` with the fixed message;
a parsed plain object is valid. -/
def validateSchema (schemaString : String) : ValidationResult :=
  if isBlank schemaString then { valid := true, error := none, parsed := some (Json.obj []) }
  else
    match parseJson schemaString with
    | some parsed =>
      if isPlainObject parsed then { valid := true, error := none, parsed := some parsed }
      else { valid := false, error := some notObjectMsg, parsed := none }
    | none => { valid := false, error := some parseFailureMsg, parsed := none }

/-- Member list of an object; empty for non-objects. -/
def objMembers : Json → List (String × Json)
  | Json.obj kvs => kvs
  | _ => []

/-- First value bound to a key in a member list. -/
def lookupJson : List (String × Json) → String → Option Json
  | [], _ => none
  | kv :: rest, k => if kv.1 = k then some kv.2 else lookupJson rest k

/-- The keys of a schema object's `properties` map, in insertion order. -/
def propertyKeys (schema : Json) : List String :=
  match lookupJson (objMembers schema) "properties" with
  | some (Json.obj kvs) => kvs.map fun kv => kv.1
  | _ => []

/-- The names listed in a schema object's `required` array, in order. -/
def requiredNames (schema : Json) : List String :=
  match lookupJson (objMembers schema) "required" with
  | some (Json.arr xs) => xs.filterMap fun v =>
      match v with
      | Json.str s => some s
      | _ => none
  | _ => []

/-- Bound on one property's schema fragment. -/
def minOf (v : Json) : Option Int :=
  match lookupJson (objMembers v) "minimum" with
  | some (Json.num lo) => some lo
  | _ => none

/-- Bound on one property's schema fragment. -/
def maxOf (v : Json) : Option Int :=
  match lookupJson (objMembers v) "maximum" with
  | some (Json.num hi) => some hi
  | _ => none

/-- `minimum ≤ maximum` whenever both bounds are present on a fragment. -/
def fieldBoundsOk (v : Json) : Bool :=
  match minOf v, maxOf v with
  | some lo, some hi => decide (lo ≤ hi)
  | _, _ => true

/-- The schema fragment bound to `name` in a schema object's `properties`. -/
def propertyOf (schema : Json) (name : String) : Option Json :=
  match lookupJson (objMembers schema) "properties" with
  | some (Json.obj kvs) => lookupJson kvs name
  | _ => none

/-- The `minimum` bound of the named property of a schema object. -/
def propMin (schema : Json) (name : String) : Option Int :=
  (propertyOf schema name).bind minOf

/-- The `maximum` bound of the named property of a schema object. -/
def propMax (schema : Json) (name : String) : Option Int :=
  (propertyOf schema name).bind maxOf

/-- The catalog keyword order exactly as §4.1 of the specification enumerates
it (price before classify).  Written from the spec's words, for comparison
with the declaration order of `schemaPatterns`. -/
def specCatalogKeywords : List (List String) :=
  [ ["fraud", "fraudulent", "scam", "spam", "phishing", "fake"],
    ["churn", "retention", "attrition", "cancel", "unsubscribe"],
    ["sentiment", "emotion", "feeling", "opinion", "review"],
    ["price", "pricing", "cost", "estimate", "valuation", "worth"],
    ["classify", "classification", "categorize", "category", "label", "tag"],
    ["recommend", "recommendation", "suggest", "personalize"],
    ["anomaly", "outlier", "abnormal", "unusual", "detect"],
    ["image", "photo", "picture", "visual", "recognize"],
    ["summarize", "summary", "extract", "abstract", "tldr"],
    ["predict", "forecast", "estimate"] ]

/-- The two SchemaObject invariants of the data model: every required name is
a property key, and bounds are ordered whenever both are present. -/
def schemaOk (schema : Json) : Bool :=
  (requiredNames schema).all (fun r => (propertyKeys schema).contains r)
    && (match lookupJson (objMembers schema) "properties" with
        | some (Json.obj kvs) => kvs.all fun kv => fieldBoundsOk kv.2
        | _ => true)

/-- Every trigger keyword of every catalog entry, in catalog order. -/
def allKeywords : List String := (schemaPatterns.map fun p => p.keywords).flatten

/-- Specification-side recursion for the scanning loop: the entry the loop
would select among `ps` when the running maximum is `h` — the first entry with
a positive match count whose score strictly exceeds `h` and is not strictly
beaten later. -/
def winnerAbove (d : String) : Int → List SchemaPattern → Option SchemaPattern
  | _, [] => none
  | h, p :: rest =>
    if 0 < matchCount p d ∧ h < effScore p d then
      match winnerAbove d (effScore p d) rest with
      | some q => some q
      | none => some p
    else winnerAbove d h rest

theorem effScore_nonneg (p : SchemaPattern) (d : String) : 0 ≤ effScore p d :=
  mul_nonneg (Int.natCast_nonneg _) (Int.natCast_nonneg _)

/-- The source loop computes exactly the specification recursion, with the
incoming accumulator as fallback. -/
theorem findBest_eq_winnerAbove (d : String) :
    ∀ (ps : List SchemaPattern) (best : Option SchemaPattern) (h : Int),
    findBest d ps best h =
      match winnerAbove d h ps with
      | some a => some a
      | none => best := by
  intro ps
  induction ps with
  | nil => intro best h; rfl
  | cons p rest ih =>
    intro best h
    simp only [findBest, winnerAbove]
    by_cases hc : 0 < matchCount p d ∧ h < effScore p d
    · rw [if_pos hc.1, if_pos hc.2, if_pos hc, ih]
      cases winnerAbove d (effScore p d) rest <;> rfl
    · rw [if_neg hc]
      by_cases h1 : 0 < matchCount p d
      · have h2 : ¬ h < effScore p d := fun h2 => hc ⟨h1, h2⟩
        rw [if_pos h1, if_neg h2, ih]
      · rw [if_neg h1, ih]

/-- The specification recursion returns nothing exactly when no entry both
matches and strictly beats the running maximum. -/
theorem winnerAbove_none_iff (d : String) :
    ∀ (ps : List SchemaPattern) (h : Int),
    winnerAbove d h ps = none ↔ ∀ p ∈ ps, matchCount p d = 0 ∨ effScore p d ≤ h := by
  intro ps
  induction ps with
  | nil => intro h; simp [winnerAbove]
  | cons p rest ih =>
    intro h
    simp only [winnerAbove]
    by_cases hc : 0 < matchCount p d ∧ h < effScore p d
    · rw [if_pos hc]
      constructor
      · intro he
        exfalso
        cases hw : winnerAbove d (effScore p d) rest <;> rw [hw] at he <;> exact Option.noConfusion he
      · intro hall
        rcases hall p (List.mem_cons_self p rest) with h0 | hle
        · omega
        · exact absurd hc.2 (not_lt.mpr hle)
    · rw [if_neg hc, ih]
      constructor
      · intro hall q hq
        rcases List.mem_cons.mp hq with rfl | hq'
        · rcases Nat.eq_zero_or_pos (matchCount q d) with h0 | hpos
          · exact Or.inl h0
          · exact Or.inr (le_of_not_lt fun h2 => hc ⟨hpos, h2⟩)
        · exact hall q hq'
      · intro hall q hq
        exact hall q (List.mem_cons_of_mem p hq)

/-- Positional characterization of a selected entry: it occurs at some index
`i`, it matches, it strictly beats the running maximum, every earlier entry is
unmatched or strictly below it, and every later entry is unmatched or not
above it.  This is exactly the first-maximum-wins contract of the loop. -/
theorem winnerAbove_some_spec (d : String) :
    ∀ (ps : List SchemaPattern) (h : Int) (a : SchemaPattern),
    winnerAbove d h ps = some a →
    ∃ i, ∃ hi : i < ps.length, ps.get ⟨i, hi⟩ = a ∧
      0 < matchCount a d ∧ h < effScore a d ∧
      (∀ j, ∀ hj : j < ps.length, j < i →
        matchCount (ps.get ⟨j, hj⟩) d = 0 ∨
          effScore (ps.get ⟨j, hj⟩) d < effScore a d) ∧
      (∀ j, ∀ hj : j < ps.length, i < j →
        matchCount (ps.get ⟨j, hj⟩) d = 0 ∨
          effScore (ps.get ⟨j, hj⟩) d ≤ effScore a d) := by
  intro ps
  induction ps with
  | nil => intro h a ha; exact absurd ha (Option.noConfusion)
  | cons p rest ih =>
    intro h a ha
    simp only [winnerAbove] at ha
    by_cases hc : 0 < matchCount p d ∧ h < effScore p d
    · rw [if_pos hc] at ha
      cases hw : winnerAbove d (effScore p d) rest with
      | some q =>
        rw [hw] at ha
        have haq : q = a := Option.some.inj ha
        subst haq
        rcases ih (effScore p d) q hw with ⟨i, hi, hget, hmc, hgt, hearlier, hlater⟩
        refine ⟨i + 1, Nat.succ_lt_succ hi, hget, hmc, lt_trans hc.2 hgt, ?_, ?_⟩
        · intro j hj hji
          cases j with
          | zero => exact Or.inr hgt
          | succ j0 =>
            exact hearlier j0 (Nat.lt_of_succ_lt_succ hj) (Nat.lt_of_succ_lt_succ hji)
        · intro j hj hij
          cases j with
          | zero => exact absurd hij (Nat.not_lt_zero _).elim
          | succ j0 =>
            exact hlater j0 (Nat.lt_of_succ_lt_succ hj) (Nat.lt_of_succ_lt_succ hij)
      | none =>
        rw [hw] at ha
        have hap : p = a := Option.some.inj ha
        subst hap
        refine ⟨0, Nat.succ_pos _, rfl, hc.1, hc.2, ?_, ?_⟩
        · intro j hj hj0; exact absurd hj0 (Nat.not_lt_zero _)
        · intro j hj h0j
          cases j with
          | zero => exact absurd h0j (lt_irrefl 0)
          | succ j0 =>
            have hmem : rest.get ⟨j0, Nat.lt_of_succ_lt_succ hj⟩ ∈ rest := List.get_mem _ _ _
            exact (winnerAbove_none_iff d rest (effScore p d)).mp hw _ hmem
    · rw [if_neg hc] at ha
      rcases ih h a ha with ⟨i, hi, hget, hmc, hgt, hearlier, hlater⟩
      refine ⟨i + 1, Nat.succ_lt_succ hi, hget, hmc, hgt, ?_, ?_⟩
      · intro j hj hji
        cases j with
        | zero =>
          rcases Nat.eq_zero_or_pos (matchCount p d) with h0 | hpos
          · exact Or.inl h0
          · have hple : effScore p d ≤ h := le_of_not_lt fun h2 => hc ⟨hpos, h2⟩
            exact Or.inr (lt_of_le_of_lt hple hgt)
        | succ j0 =>
          exact hearlier j0 (Nat.lt_of_succ_lt_succ hj) (Nat.lt_of_succ_lt_succ hji)
      · intro j hj hij
        cases j with
        | zero => exact absurd hij (Nat.not_lt_zero _).elim
        | succ j0 =>
          exact hlater j0 (Nat.lt_of_succ_lt_succ hj) (Nat.lt_of_succ_lt_succ hij)

/-- The loop's result is either its incoming accumulator or a catalog entry. -/
theorem findBest_some_mem (d : String) :
    ∀ (ps : List SchemaPattern) (best : Option SchemaPattern) (h : Int) (a : SchemaPattern),
    findBest d ps best h = some a → best = some a ∨ a ∈ ps := by
  intro ps
  induction ps with
  | nil => intro best h a ha; exact Or.inl ha
  | cons p rest ih =>
    intro best h a ha
    simp only [findBest] at ha
    by_cases h1 : 0 < matchCount p d
    · rw [if_pos h1] at ha
      by_cases h2 : h < effScore p d
      · rw [if_pos h2] at ha
        rcases ih _ _ _ ha with hb | hm
        · exact Or.inr (List.mem_cons.mpr (Or.inl (Option.some.inj hb).symm))
        · exact Or.inr (List.mem_cons_of_mem p hm)
      · rw [if_neg h2] at ha
        rcases ih _ _ _ ha with hb | hm
        · exact Or.inl hb
        · exact Or.inr (List.mem_cons_of_mem p hm)
    · rw [if_neg h1] at ha
      rcases ih _ _ _ ha with hb | hm
      · exact Or.inl hb
      · exact Or.inr (List.mem_cons_of_mem p hm)

/-- `generateSchemas` returns the default schema or some catalog entry's
generator result. -/
theorem generateSchemas_cases (d : String) :
    generateSchemas d = getDefaultSchema ∨
      ∃ p ∈ schemaPatterns, generateSchemas d = p.generator := by
  by_cases hb : isBlank d
  · left; simp [generateSchemas, hb]
  · cases hf : findBest (lowerStr d) schemaPatterns none (-1) with
    | none => left; simp [generateSchemas, hb, hf]
    | some a =>
      right
      rcases findBest_some_mem _ _ _ _ _ hf with hcontra | hm
      · exact absurd hcontra (by simp)
      · exact ⟨a, hm, by simp [generateSchemas, hb, hf]⟩

/-- If entry `i` matches, no entry scores above it, and every earlier entry is
unmatched or strictly below it, the matcher selects entry `i`. -/
theorem generateSchemas_firstMax (d : String) (hb : isBlank d = false)
    (i : Nat) (hi : i < schemaPatterns.length)
    (hmc : 0 < matchCount (schemaPatterns.get ⟨i, hi⟩) (lowerStr d))
    (hmax : ∀ j, ∀ hj : j < schemaPatterns.length,
        effScore (schemaPatterns.get ⟨j, hj⟩) (lowerStr d) ≤
          effScore (schemaPatterns.get ⟨i, hi⟩) (lowerStr d))
    (hfirst : ∀ j, ∀ hj : j < schemaPatterns.length, j < i →
        matchCount (schemaPatterns.get ⟨j, hj⟩) (lowerStr d) = 0 ∨
          effScore (schemaPatterns.get ⟨j, hj⟩) (lowerStr d) <
            effScore (schemaPatterns.get ⟨i, hi⟩) (lowerStr d)) :
    generateSchemas d = (schemaPatterns.get ⟨i, hi⟩).generator := by
  have hnn := effScore_nonneg (schemaPatterns.get ⟨i, hi⟩) (lowerStr d)
  cases hw : winnerAbove (lowerStr d) (-1) schemaPatterns with
  | none =>
    exfalso
    rcases (winnerAbove_none_iff _ _ _).mp hw _ (List.get_mem schemaPatterns i hi) with h0 | hle
    · omega
    · omega
  | some a =>
    rcases winnerAbove_some_spec _ _ _ _ hw with ⟨k, hk, hget, hmca, _, hearlier, hlater⟩
    have hki : k = i := by
      rcases Nat.lt_trichotomy k i with hlt | heq | hgt
      · exfalso
        rcases hfirst k hk hlt with h0 | hlt2
        · rw [hget] at h0; omega
        · rcases hlater i hi hlt with h0 | hle2
          · omega
          · rw [hget] at hlt2; omega
      · exact heq
      · exfalso
        rcases hearlier i hi hgt with h0 | hlt2
        · omega
        · have h1 := hmax k hk
          rw [hget] at h1
          omega
    subst hki
    simp only [generateSchemas, hb, Bool.false_eq_true, if_false]
    rw [findBest_eq_winnerAbove, hw, hget]

/-- A keyword of a catalog entry is a catalog keyword. -/
theorem mem_allKeywords {p : SchemaPattern} (hp : p ∈ schemaPatterns)
    {k : String} (hk : k ∈ p.keywords) : k ∈ allKeywords := by
  simp only [allKeywords, List.mem_flatten]
  exact ⟨p.keywords, List.mem_map.mpr ⟨p, hp, rfl⟩, hk⟩

/-- If no catalog keyword occurs in the description, every entry's match
count is zero. -/
theorem matchCount_eq_zero_of_no_keyword {d : String}
    (hno : ∀ k ∈ allKeywords, includes d k = false) {p : SchemaPattern}
    (hp : p ∈ schemaPatterns) : matchCount p d = 0 := by
  simp only [matchCount, List.length_eq_zero]
  rw [List.filter_eq_nil_iff]
  intro k hk
  simp [hno k (mem_allKeywords hp hk)]

/-- If some catalog keyword occurs, some entry has a positive match count. -/
theorem matchCount_pos_of_keyword {d : String} {k : String} (hk : k ∈ allKeywords)
    (hinc : includes d k = true) :
    ∃ p ∈ schemaPatterns, 0 < matchCount p d := by
  simp only [allKeywords, List.mem_flatten, List.mem_map] at hk
  rcases hk with ⟨l, ⟨p, hp, hl⟩, hkl⟩
  refine ⟨p, hp, ?_⟩
  have hmem : k ∈ p.keywords.filter fun keyword => includes d keyword := by
    rw [List.mem_filter]
    exact ⟨by rw [hl]; exact hkl, hinc⟩
  have := List.length_pos.mpr (List.ne_nil_of_mem hmem)
  simpa [matchCount] using this

/-- No catalog generator result coincides with the default schema set: the
keys of the input schema's `properties` differ. -/
theorem generator_ne_default :
    ∀ p ∈ schemaPatterns,
      ¬ propertyKeys p.generator.input = propertyKeys getDefaultSchema.input := by
  decide

/-- The matcher falls back to the default schema exactly on blank input or
when no catalog keyword occurs in the lower-cased description. -/
theorem generateSchemas_default_iff (d : String) :
    generateSchemas d = getDefaultSchema ↔
      (isBlank d = true ∨ ∀ k ∈ allKeywords, includes (lowerStr d) k = false) := by
  constructor
  · intro hres
    by_cases hb : isBlank d
    · exact Or.inl hb
    · right
      intro k hk
      by_contra hkin
      have hkin2 : includes (lowerStr d) k = true := by
        cases hx : includes (lowerStr d) k
        · exact absurd hx hkin
        · rfl
      rcases matchCount_pos_of_keyword hk hkin2 with ⟨p, hp, hpos⟩
      cases hw : winnerAbove (lowerStr d) (-1) schemaPatterns with
      | none =>
        rcases (winnerAbove_none_iff _ _ _).mp hw p hp with h0 | hle
        · omega
        · have := effScore_nonneg p (lowerStr d); omega
      | some a =>
        rcases winnerAbove_some_spec _ _ _ _ hw with ⟨i, hi, hget, _, _, _, _⟩
        have hmem : a ∈ schemaPatterns := hget ▸ List.get_mem schemaPatterns i hi
        have hres2 : generateSchemas d = a.generator := by
          simp only [generateSchemas, hb, Bool.false_eq_true, if_false]
          rw [findBest_eq_winnerAbove, hw]
        rw [hres] at hres2
        exact generator_ne_default a hmem (by rw [← hres2])
  · intro hcase
    rcases hcase with hb | hno
    · simp [generateSchemas, hb]
    · by_cases hb : isBlank d
      · simp [generateSchemas, hb]
      · have hw : winnerAbove (lowerStr d) (-1) schemaPatterns = none := by
          rw [winnerAbove_none_iff]
          intro p hp
          exact Or.inl (matchCount_eq_zero_of_no_keyword hno hp)
        simp only [generateSchemas, hb, Bool.false_eq_true, if_false]
        rw [findBest_eq_winnerAbove, hw]

/-- An unmatched entry scores zero. -/
theorem effScore_eq_zero {p : SchemaPattern} {d : String}
    (h : matchCount p d = 0) : effScore p d = 0 := by
  simp [effScore, h]

/-- Every catalog priority is at most 10. -/
theorem priority_le_ten :
    ∀ j, ∀ hj : j < schemaPatterns.length, (schemaPatterns.get ⟨j, hj⟩).priority ≤ 10 := by
  decide

/-- The catalog has ten entries. -/
theorem schemaPatterns_length : schemaPatterns.length = 10 := by decide

/-- A score is bounded by `10 × matchCount`. -/
theorem effScore_le {p : SchemaPattern} (d : String) (hp : p ∈ schemaPatterns)
    {b : Nat} (hb : matchCount p d ≤ b) : effScore p d ≤ 10 * b := by
  rcases List.mem_iff_get.mp hp with ⟨⟨j, hj⟩, hget⟩
  have hprio : p.priority ≤ 10 := by
    have := priority_le_ten j hj
    rw [hget] at this
    exact this
  have hn : p.priority * matchCount p d ≤ 10 * b := Nat.mul_le_mul hprio hb
  have : effScore p d = ((p.priority * matchCount p d : Nat) : Int) := by
    simp [effScore]
  rw [this]
  exact_mod_cast hn

/-- **C1** (amended): for the input string "I want to identify which company
emails are fraudulent", `generateSchemas` selects the fraud pattern as the
winning entry — with `matchCount = 2` (the keyword "fraud" is a substring of
the word "fraudulent", so both "fraud" and "fraudulent" match) and
`effectiveScore = 20` — and the returned SchemaSet's output SchemaObject has
`required = ["is_fraudulent", "confidence"]` and a `properties.confidence`
field with `minimum = 0` and `maximum = 1`. -/
theorem c1_fraud_wins_with_double_match :
    generateSchemas "I want to identify which company emails are fraudulent" = fraudSchemas ∧
    matchCount (schemaPatterns.get ⟨0, by decide⟩)
      (lowerStr "I want to identify which company emails are fraudulent") = 2 ∧
    effScore (schemaPatterns.get ⟨0, by decide⟩)
      (lowerStr "I want to identify which company emails are fraudulent") = 20 ∧
    requiredNames fraudSchemas.output = ["is_fraudulent", "confidence"] ∧
    propMin fraudSchemas.output "confidence" = some 0 ∧
    propMax fraudSchemas.output "confidence" = some 1 :=
  ⟨by rfl, by decide, by decide, by decide, by decide, by decide⟩

/-- **C1** counterexample: on that input the fraud pattern's match count is
not 1 and its effective score is not 10 (they are 2 and 20: "fraud" also
matches inside "fraudulent"). -/
theorem c1_counterexample :
    ¬ (matchCount (schemaPatterns.get ⟨0, by decide⟩)
         (lowerStr "I want to identify which company emails are fraudulent") = 1 ∧
       effScore (schemaPatterns.get ⟨0, by decide⟩)
         (lowerStr "I want to identify which company emails are fraudulent") = 10) := by
  decide

/-- **C3** counterexample: the catalog's declaration order is not the order
enumerated in §4.1 of the spec — the classification entry is declared before
the pricing entry, not after it. -/
theorem c3_spec_order_counterexample :
    ¬ schemaPatterns.map (fun p => p.keywords) = specCatalogKeywords := by
  decide

/-- **C3** (amended): ties on equal `effectiveScore` keep the
earliest-declared entry — whenever entry `i` matches, no entry scores
strictly above it, and every earlier entry is unmatched or strictly below it,
entry `i` wins — and the catalog's declaration order is fraud, churn,
sentiment, classify, price, recommend, anomaly, image, summarize, predict,
with the keyword sets and priorities listed in §4.1. -/
theorem c3_catalog_order_and_tiebreak :
    (schemaPatterns.map (fun p => p.keywords) =
      [ ["fraud", "fraudulent", "scam", "spam", "phishing", "fake"],
        ["churn", "retention", "attrition", "cancel", "unsubscribe"],
        ["sentiment", "emotion", "feeling", "opinion", "review"],
        ["classify", "classification", "categorize", "category", "label", "tag"],
        ["price", "pricing", "cost", "estimate", "valuation", "worth"],
        ["recommend", "recommendation", "suggest", "personalize"],
        ["anomaly", "outlier", "abnormal", "unusual", "detect"],
        ["image", "photo", "picture", "visual", "recognize"],
        ["summarize", "summary", "extract", "abstract", "tldr"],
        ["predict", "forecast", "estimate"] ] ∧
     schemaPatterns.map (fun p => p.priority) = [10, 10, 9, 8, 9, 8, 8, 7, 7, 5]) ∧
    ∀ (d : String) (i : Nat) (hi : i < schemaPatterns.length),
      isBlank d = false →
      0 < matchCount (schemaPatterns.get ⟨i, hi⟩) (lowerStr d) →
      (∀ j, ∀ hj : j < schemaPatterns.length,
          effScore (schemaPatterns.get ⟨j, hj⟩) (lowerStr d) ≤
            effScore (schemaPatterns.get ⟨i, hi⟩) (lowerStr d)) →
      (∀ j, ∀ hj : j < schemaPatterns.length, j < i →
          matchCount (schemaPatterns.get ⟨j, hj⟩) (lowerStr d) = 0 ∨
            effScore (schemaPatterns.get ⟨j, hj⟩) (lowerStr d) <
              effScore (schemaPatterns.get ⟨i, hi⟩) (lowerStr d)) →
      generateSchemas d = (schemaPatterns.get ⟨i, hi⟩).generator :=
  ⟨⟨by decide, by decide⟩, fun d i hi hb hmc hmax hfirst =>
    generateSchemas_firstMax d hb i hi hmc hmax hfirst⟩

/-- **C3** witness: "review the cost" scores the sentiment entry (index 2)
and the pricing entry (index 4) both at 9; the earlier-declared sentiment
entry wins the tie. -/
theorem c3_witness :
    generateSchemas "review the cost" = sentimentSchemas ∧
    effScore (schemaPatterns.get ⟨2, by decide⟩) (lowerStr "review the cost") = 9 ∧
    effScore (schemaPatterns.get ⟨4, by decide⟩) (lowerStr "review the cost") = 9 :=
  ⟨c3_catalog_order_and_tiebreak.2 "review the cost" 2 (by decide)
      (by decide) (by decide) (by decide) (by decide),
    by decide, by decide⟩

/-- **C4**: `generateSchemas` returns the Default Schema exactly when the
input is blank or no catalog keyword occurs as a substring of the lower-cased
description; the Default Schema has input properties data/features/metadata
with required `["data"]` and output properties prediction/confidence/metadata
with required `["prediction"]` and confidence bounded by 0 and 1. -/
theorem c4_default_schema_iff :
    (∀ d : String,
      generateSchemas d = getDefaultSchema ↔
        (isBlank d = true ∨ ∀ k ∈ allKeywords, includes (lowerStr d) k = false)) ∧
    propertyKeys getDefaultSchema.input = ["data", "features", "metadata"] ∧
    requiredNames getDefaultSchema.input = ["data"] ∧
    propertyKeys getDefaultSchema.output = ["prediction", "confidence", "metadata"] ∧
    requiredNames getDefaultSchema.output = ["prediction"] ∧
    propMin getDefaultSchema.output "confidence" = some 0 ∧
    propMax getDefaultSchema.output "confidence" = some 1 :=
  ⟨generateSchemas_default_iff, by decide, by decide, by decide, by decide,
    by decide, by decide⟩

/-- **C4** witness: a keyword-free description and a whitespace-only one both
produce the Default Schema. -/
theorem c4_witness :
    generateSchemas "hello world" = getDefaultSchema ∧
    generateSchemas "   " = getDefaultSchema :=
  ⟨(c4_default_schema_iff.1 "hello world").mpr (Or.inr (by decide)),
   (c4_default_schema_iff.1 "   ").mpr (Or.inl (by decide))⟩

/-- **C6**: `validateSchema` is total; the parse-failure case never escapes —
it is returned as `{valid: false, error}` with a non-empty message. -/
theorem c6_parse_failure_contained (s : String) (hb : isBlank s = false)
    (hp : parseJson s = none) :
    validateSchema s = { valid := false, error := some parseFailureMsg, parsed := none } ∧
    (validateSchema s).error.isSome = true ∧ parseFailureMsg ≠ "" := by
  refine ⟨?_, ?_, by decide⟩ <;> simp [validateSchema, hb, hp]

/-- **C6** witness: the unterminated object text consisting of one opening
brace fails to parse and is reported, not thrown. -/
theorem c6_witness :
    validateSchema "\x7b" = { valid := false, error := some parseFailureMsg, parsed := none } ∧
    (validateSchema "\x7b").error.isSome = true ∧ parseFailureMsg ≠ "" :=
  c6_parse_failure_contained "\x7b" (by decide) (by rfl)

/-- **C8**: for every description, both schemas of the returned SchemaSet
satisfy the two invariants — every required name is a property key, and
`minimum ≤ maximum` whenever both bounds are present. -/
theorem c8_schema_invariants :
    ∀ d : String,
      schemaOk (generateSchemas d).input = true ∧
      schemaOk (generateSchemas d).output = true := by
  intro d
  rcases generateSchemas_cases d with h | ⟨p, hp, h⟩
  · rw [h]; exact ⟨by decide, by decide⟩
  · rw [h]
    exact (by decide :
      ∀ q ∈ schemaPatterns,
        schemaOk q.generator.input = true ∧ schemaOk q.generator.output = true) p hp

/-- **C2**: each entry's match count counts each keyword at most once (it is
bounded by the keyword-list length); whenever some entry matches, the matcher
returns the generator result of an entry of maximal effective score; and in
the churn/cancel scenario — churn entry matching exactly twice, every other
entry at most once — the churn entry wins with `effectiveScore = 10 × 2 = 20`,
beating any single-keyword match of score at most 10. -/
theorem c2_max_effective_score_wins :
    ∀ d : String,
      (∀ p ∈ schemaPatterns, matchCount p (lowerStr d) ≤ p.keywords.length) ∧
      (isBlank d = false →
        (∃ p ∈ schemaPatterns, 0 < matchCount p (lowerStr d)) →
        ∃ p ∈ schemaPatterns, generateSchemas d = p.generator ∧
          0 < matchCount p (lowerStr d) ∧
          ∀ q ∈ schemaPatterns, effScore q (lowerStr d) ≤ effScore p (lowerStr d)) ∧
      (isBlank d = false →
        includes (lowerStr d) "churn" = true →
        includes (lowerStr d) "cancel" = true →
        matchCount (schemaPatterns.get ⟨1, by decide⟩) (lowerStr d) = 2 →
        (∀ j, ∀ hj : j < schemaPatterns.length, j ≠ 1 →
          matchCount (schemaPatterns.get ⟨j, hj⟩) (lowerStr d) ≤ 1) →
        generateSchemas d = churnSchemas ∧
          effScore (schemaPatterns.get ⟨1, by decide⟩) (lowerStr d) = 20) := by
  intro d
  refine ⟨fun p _ => List.length_filter_le _ _, ?_, ?_⟩
  · intro hb hex
    rcases hex with ⟨p0, hp0, hpos0⟩
    cases hw : winnerAbove (lowerStr d) (-1) schemaPatterns with
    | none =>
      exfalso
      rcases (winnerAbove_none_iff _ _ _).mp hw p0 hp0 with h0 | hle
      · omega
      · have := effScore_nonneg p0 (lowerStr d); omega
    | some a =>
      rcases winnerAbove_some_spec _ _ _ _ hw with ⟨i, hi, hget, hmca, _, hearlier, hlater⟩
      have hmem : a ∈ schemaPatterns := hget ▸ List.get_mem schemaPatterns i hi
      refine ⟨a, hmem, ?_, hmca, ?_⟩
      · simp only [generateSchemas, hb, Bool.false_eq_true, if_false]
        rw [findBest_eq_winnerAbove, hw]
      · intro q hq
        rcases List.mem_iff_get.mp hq with ⟨⟨j, hj⟩, hgq⟩
        rcases Nat.lt_trichotomy j i with hlt | heq | hgt
        · rcases hearlier j hj hlt with h0 | hlt2
          · rw [hgq] at h0
            rw [effScore_eq_zero h0]
            exact effScore_nonneg a (lowerStr d)
          · rw [hgq] at hlt2
            exact le_of_lt hlt2
        · have hqa : q = a := by subst heq; rw [← hgq, ← hget]
          rw [hqa]
        · rcases hlater j hj hgt with h0 | hle2
          · rw [hgq] at h0
            rw [effScore_eq_zero h0]
            exact effScore_nonneg a (lowerStr d)
          · rw [hgq] at hle2
            exact hle2
  · intro hb _ _ hmc2 hothers
    have heq : effScore (schemaPatterns.get ⟨1, by decide⟩) (lowerStr d) =
        10 * (matchCount (schemaPatterns.get ⟨1, by decide⟩) (lowerStr d) : Int) := rfl
    have heff1 : effScore (schemaPatterns.get ⟨1, by decide⟩) (lowerStr d) = 20 := by
      rw [heq, hmc2]; rfl
    refine ⟨?_, heff1⟩
    have hres := generateSchemas_firstMax d hb 1 (by decide) (by omega) ?_ ?_
    · exact hres.trans (by rfl)
    · intro j hj
      by_cases hj1 : j = 1
      · subst hj1; exact le_refl _
      · have hle : effScore (schemaPatterns.get ⟨j, hj⟩) (lowerStr d) ≤ 10 * 1 :=
          effScore_le (lowerStr d) (List.get_mem schemaPatterns j hj) (hothers j hj hj1)
        rw [heff1]; omega
    · intro j hj hjlt
      have hle : effScore (schemaPatterns.get ⟨j, hj⟩) (lowerStr d) ≤ 10 * 1 :=
        effScore_le (lowerStr d) (List.get_mem schemaPatterns j hj)
          (hothers j hj (by omega))
      right
      rw [heff1]; omega

/-- **C2** witness: on "churn cancel" the churn entry matches twice and wins
with effective score 20. -/
theorem c2_witness :
    (∃ p ∈ schemaPatterns, generateSchemas "churn cancel" = p.generator ∧
        0 < matchCount p (lowerStr "churn cancel") ∧
        ∀ q ∈ schemaPatterns,
          effScore q (lowerStr "churn cancel") ≤ effScore p (lowerStr "churn cancel")) ∧
    generateSchemas "churn cancel" = churnSchemas ∧
    effScore (schemaPatterns.get ⟨1, by decide⟩) (lowerStr "churn cancel") = 20 := by
  refine ⟨(c2_max_effective_score_wins "churn cancel").2.1 (by decide)
      ⟨schemaPatterns.get ⟨1, by decide⟩, List.get_mem _ _ _, by decide⟩, ?_, ?_⟩
  · exact ((c2_max_effective_score_wins "churn cancel").2.2 (by decide) (by decide)
      (by decide) (by decide) (by decide)).1
  · exact ((c2_max_effective_score_wins "churn cancel").2.2 (by decide) (by decide)
      (by decide) (by decide) (by decide)).2

/-- **C9**: "fraud" is a substring of "fraudulent", so every description
containing "fraudulent" gives the fraud entry a match count of at least 2 and
hence an effective score of at least 20: one word matches two keywords of the
same entry. -/
theorem c9_fraudulent_double_match :
    ∀ d : String, includes (lowerStr d) "fraudulent" = true →
      2 ≤ matchCount (schemaPatterns.get ⟨0, by decide⟩) (lowerStr d) ∧
      20 ≤ effScore (schemaPatterns.get ⟨0, by decide⟩) (lowerStr d) := by
  intro d hful
  have hfr : includes (lowerStr d) "fraud" = true := by
    have ht : "fraud".data <:+: "fraudulent".data := by decide
    simp only [includes, decide_eq_true_eq] at hful ⊢
    exact ht.trans hful
  have hmc : 2 ≤ matchCount (schemaPatterns.get ⟨0, by decide⟩) (lowerStr d) := by
    show 2 ≤ (List.filter (fun keyword => includes (lowerStr d) keyword)
        ["fraud", "fraudulent", "scam", "spam", "phishing", "fake"]).length
    simp only [List.filter_cons, hfr, hful, if_true, List.length_cons]
    omega
  refine ⟨hmc, ?_⟩
  have heq : effScore (schemaPatterns.get ⟨0, by decide⟩) (lowerStr d) =
      10 * (matchCount (schemaPatterns.get ⟨0, by decide⟩) (lowerStr d) : Int) := rfl
  have h2 : (2 : Int) ≤ (matchCount (schemaPatterns.get ⟨0, by decide⟩) (lowerStr d) : Int) := by
    exact_mod_cast hmc
  rw [heq]
  omega

/-- **C9** witness: "this is fraudulent" contains "fraudulent" and scores the
fraud entry at least 20. -/
theorem c9_witness :
    includes (lowerStr "this is fraudulent") "fraudulent" = true ∧
    2 ≤ matchCount (schemaPatterns.get ⟨0, by decide⟩) (lowerStr "this is fraudulent") ∧
    20 ≤ effScore (schemaPatterns.get ⟨0, by decide⟩) (lowerStr "this is fraudulent") :=
  ⟨by decide, (c9_fraudulent_double_match "this is fraudulent" (by decide)).1,
    (c9_fraudulent_double_match "this is fraudulent" (by decide)).2⟩

/-- **C5**: for every input string, `validateSchema` returns valid with an
empty parsed object on blank input; invalid with a non-empty parser message
when parsing fails; invalid with the fixed object-only message when parsing
yields a non-object; and valid with the parsed object on a plain object —
with `error` present exactly when `valid` is false and `parsed` present
exactly when `valid` is true. -/
theorem c5_validate_schema_cases :
    ∀ s : String,
      ((validateSchema s).error.isSome = true ↔ (validateSchema s).valid = false) ∧
      ((validateSchema s).parsed.isSome = true ↔ (validateSchema s).valid = true) ∧
      validateSchema s =
        (if isBlank s then { valid := true, error := none, parsed := some (Json.obj []) }
         else
           match parseJson s with
           | none => { valid := false, error := some parseFailureMsg, parsed := none }
           | some (Json.obj kvs) => { valid := true, error := none, parsed := some (Json.obj kvs) }
           | some _ => { valid := false, error := some notObjectMsg, parsed := none }) ∧
      parseFailureMsg ≠ "" ∧ notObjectMsg ≠ "" := by
  intro s
  refine ⟨?_, ?_, ?_, by decide, by decide⟩ <;>
  · by_cases hb : isBlank s
    · simp [validateSchema, hb]
    · cases hp : parseJson s with
      | none => simp [validateSchema, hb, hp]
      | some v => cases v <;> simp [validateSchema, hb, hp, isPlainObject]

set_option maxRecDepth 1000000 in
set_option maxHeartbeats 4000000 in
/-- **C7**: round-trip law — JSON-parsing the 2-space-indented rendering of
either schema of any SchemaSet the matcher returns yields exactly the
original object, member order included; members are indented two spaces per
nesting level. -/
theorem c7_format_roundtrip :
    formatSchema (Json.obj [("a", Json.num 1)]) = "\x7b\n  \"a\": 1\n\x7d" ∧
    ∀ d : String,
      parseJson (formatSchema (generateSchemas d).input) = some (generateSchemas d).input ∧
      parseJson (formatSchema (generateSchemas d).output) = some (generateSchemas d).output := by
  refine ⟨by rfl, ?_⟩
  intro d
  rcases generateSchemas_cases d with h | ⟨p, hp, h⟩
  · rw [h]; exact ⟨by rfl, by rfl⟩
  · rw [h]
    simp only [schemaPatterns, List.mem_cons, List.not_mem_nil, or_false] at hp
    rcases hp with rfl | rfl | rfl | rfl | rfl | rfl | rfl | rfl | rfl | rfl <;>
      exact ⟨by rfl, by rfl⟩

/-- **C10**: "estimate" belongs to both the pricing entry (priority 9) and
the predict entry (priority 5); whenever it is the only catalog keyword
occurring in the lower-cased description, the pricing entry wins `9×1 > 5×1`
and the matcher returns the pricing SchemaSet, never the predict SchemaSet. -/
theorem c10_estimate_price_beats_predict :
    ∀ d : String, isBlank d = false →
      includes (lowerStr d) "estimate" = true →
      (∀ k ∈ allKeywords, k ≠ "estimate" → includes (lowerStr d) k = false) →
      generateSchemas d = priceSchemas ∧ generateSchemas d ≠ predictSchemas := by
  intro d hb hest hno
  have hmc1 : ∀ p ∈ schemaPatterns, matchCount p (lowerStr d) =
      (p.keywords.filter fun k => k == "estimate").length := by
    intro p hp
    unfold matchCount
    congr 1
    apply List.filter_congr
    intro k hk
    by_cases he : k = "estimate"
    · subst he; simp [hest]
    · simp [hno k (mem_allKeywords hp hk) he, he]
  have hmcj : ∀ j, ∀ hj : j < schemaPatterns.length,
      matchCount (schemaPatterns.get ⟨j, hj⟩) (lowerStr d) =
        ((schemaPatterns.get ⟨j, hj⟩).keywords.filter fun k => k == "estimate").length :=
    fun j hj => hmc1 _ (List.get_mem schemaPatterns j hj)
  have hi4 : (4 : Nat) < schemaPatterns.length := by decide
  have hm4 : matchCount (schemaPatterns.get ⟨4, hi4⟩) (lowerStr d) = 1 := by
    rw [hmcj 4 hi4]; rfl
  have he4 : effScore (schemaPatterns.get ⟨4, hi4⟩) (lowerStr d) = 9 := by
    have h9 : effScore (schemaPatterns.get ⟨4, hi4⟩) (lowerStr d) =
        9 * (matchCount (schemaPatterns.get ⟨4, hi4⟩) (lowerStr d) : Int) := rfl
    rw [h9, hm4]; rfl
  have hmax : ∀ j, ∀ hj : j < schemaPatterns.length,
      effScore (schemaPatterns.get ⟨j, hj⟩) (lowerStr d) ≤
        effScore (schemaPatterns.get ⟨4, hi4⟩) (lowerStr d) := by
    intro j hj
    have hj10 : j < 10 := by
      have hlen := schemaPatterns_length; omega
    rw [he4]
    interval_cases j
    · rw [effScore_eq_zero (by rw [hmcj 0 hj]; rfl)]; norm_num
    · rw [effScore_eq_zero (by rw [hmcj 1 hj]; rfl)]; norm_num
    · rw [effScore_eq_zero (by rw [hmcj 2 hj]; rfl)]; norm_num
    · rw [effScore_eq_zero (by rw [hmcj 3 hj]; rfl)]; norm_num
    · exact le_of_eq he4
    · rw [effScore_eq_zero (by rw [hmcj 5 hj]; rfl)]; norm_num
    · rw [effScore_eq_zero (by rw [hmcj 6 hj]; rfl)]; norm_num
    · rw [effScore_eq_zero (by rw [hmcj 7 hj]; rfl)]; norm_num
    · rw [effScore_eq_zero (by rw [hmcj 8 hj]; rfl)]; norm_num
    · have em9 : matchCount (schemaPatterns.get ⟨9, hj⟩) (lowerStr d) = 1 := by
        rw [hmcj 9 hj]; rfl
      have h5 : effScore (schemaPatterns.get ⟨9, hj⟩) (lowerStr d) =
          5 * (matchCount (schemaPatterns.get ⟨9, hj⟩) (lowerStr d) : Int) := rfl
      rw [h5, em9]; norm_num
  have hfirst : ∀ j, ∀ hj : j < schemaPatterns.length, j < 4 →
      matchCount (schemaPatterns.get ⟨j, hj⟩) (lowerStr d) = 0 ∨
        effScore (schemaPatterns.get ⟨j, hj⟩) (lowerStr d) <
          effScore (schemaPatterns.get ⟨4, hi4⟩) (lowerStr d) := by
    intro j hj hlt
    left
    interval_cases j
    · rw [hmcj 0 hj]; rfl
    · rw [hmcj 1 hj]; rfl
    · rw [hmcj 2 hj]; rfl
    · rw [hmcj 3 hj]; rfl
  have hres := generateSchemas_firstMax d hb 4 hi4 (by rw [hm4]; decide) hmax hfirst
  have hgen : (schemaPatterns.get ⟨4, hi4⟩).generator = priceSchemas := rfl
  refine ⟨hres.trans hgen, ?_⟩
  rw [hres.trans hgen]
  intro hcontra
  have hreq : requiredNames priceSchemas.output = requiredNames predictSchemas.output := by
    rw [hcontra]
  exact absurd hreq (by decide)

/-- **C10** witness: on the description "estimate", the matcher returns the
pricing SchemaSet and not the predict SchemaSet. -/
theorem c10_witness :
    generateSchemas "estimate" = priceSchemas ∧
    generateSchemas "estimate" ≠ predictSchemas :=
  c10_estimate_price_beats_predict "estimate" (by decide) (by decide) (by decide)

/-- **C5** witness: a concrete array input is rejected with the fixed
object-only message, and the empty string is vacuously valid with an empty
parsed object. -/
theorem c5_witness :
    validateSchema "[1,2,3]" =
      { valid := false, error := some notObjectMsg, parsed := none } ∧
    validateSchema "" = { valid := true, error := none, parsed := some (Json.obj []) } := by
  have h1 := (c5_validate_schema_cases "[1,2,3]").2.2.1
  have h2 := (c5_validate_schema_cases "").2.2.1
  constructor
  · rw [h1]; rfl
  · rw [h2]; rfl
